import Mathlib

/-!
Shallow embedding of the MRZ scanner core: the attempt cascade of
`process_image`, the page helper `_process_single_page`, the scheduler and
executor of `process_pdf`, the page rasterizer wrapper
`convert_pdf_page_to_image` (all in src/mrz_scanner.py), and the PDF branch
of the three scan endpoints in src/api/app.py.

External collaborators (the OCR engine, the MRZ parser, the PDF rasterizer
libraries, the filesystem) are modelled as oracles: every external call is a
field of an oracle structure returning `Except Unit _` (where `.error`
stands for a raised exception) or a `Bool` failure flag.  Temporary files
are tracked through an explicit `TempFs` state threaded through the
interpreters, mirroring the create/delete calls of the source.
-/

/-! ## Basic data -/

/-- Python `range(a, b)` over integers (step 1). -/
def pyRange (a b : Int) : List Int :=
  (List.range (b - a).toNat).map (fun i => a + i)

/-- Drop leading and trailing whitespace from a character list. -/
def stripChars (l : List Char) : List Char :=
  ((l.dropWhile Char.isWhitespace).reverse.dropWhile Char.isWhitespace).reverse

/-- Python `str.strip()` (whitespace form). -/
def pyStrip (s : String) : String := String.mk (stripChars s.data)

/-- Python `str.split("\n")` on a character list (an empty input yields one
empty chunk, like Python). -/
def splitNl : List Char → List Char → List (List Char)
  | [], acc => [acc.reverse]
  | c :: rest, acc =>
    if c = '\n' then acc.reverse :: splitNl rest [] else splitNl rest (c :: acc)

/-- Python `"\n".join(chunks)` on character lists. -/
def joinNl : List (List Char) → List Char
  | [] => []
  | [l] => l
  | l :: ls => l ++ '\n' :: joinNl ls

/-- Python `str.lower()` (ASCII form). -/
def pyLower (s : String) : String := String.mk (s.data.map Char.toLower)

/-- Python `str.endswith(suffix)`. -/
def pyEndsWith (s suffix : String) : Bool := suffix.data.isSuffixOf s.data

/-- The text clean-up used before text-based parsing (mrz_scanner.py lines
194 and 282): strip, split on newlines, strip each line, drop empties,
rejoin with newlines. -/
def cleanLines (s : String) : String :=
  String.mk
    (joinNl (((splitNl (pyStrip s).data []).map stripChars).filter (fun l => l ≠ [])))

/-- A result dictionary as produced by the parser/scanner: every key that the
orchestration code reads or writes, with "" / `none` standing for an absent
or empty entry. -/
structure ResultDict where
  document_number : String := ""
  given_name : String := ""
  surname : Option String := none
  raw_text : Option String := none
  page_number : Option Int := none
  total_pages : Option Nat := none
  error : Option String := none
deriving Repr, DecidableEq

/-- The acceptance test applied to a parse result throughout the source:
`result.get("document_number") or result.get("given_name")` is truthy. -/
def acceptedDict (d : ResultDict) : Bool :=
  d.document_number ≠ "" || d.given_name ≠ ""

/-- The full Python condition `result and (result.get("document_number") or
result.get("given_name"))`. -/
def acceptedOpt : Option ResultDict → Bool
  | none => false
  | some d => acceptedDict d

/-- Crop region of an attempt. -/
inductive Region where
  | full
  | bottom30
deriving Repr, DecidableEq

/-- Recognition mode of an attempt. -/
inductive RecogMode where
  | imageParse
  | textParse
  | directOcr
deriving Repr, DecidableEq

/-- One cascade attempt descriptor: rotation angle, crop region, recognition
mode, and the `include_checkdigit` flag passed to the parser. -/
structure Attempt where
  rotation : Int
  region : Region
  mode : RecogMode
  includeCheckdigit : Bool
deriving Repr, DecidableEq

/-- Image-based parse attempt (`fast_mrz.get_details(path,
include_checkdigit=False)`). -/
def attImg (rot : Int) (reg : Region) : Attempt :=
  ⟨rot, reg, .imageParse, false⟩

/-- Text-based re-parse attempt (`fast_mrz.get_details(text,
input_type="text", include_checkdigit=False)`). -/
def attText (rot : Int) : Attempt :=
  ⟨rot, .full, .textParse, false⟩

/-- Direct-OCR fallback attempt (pytesseract with the mrz language at 90
degrees, then text parse with include_checkdigit=False). -/
def attOcr (reg : Region) : Attempt :=
  ⟨90, reg, .directOcr, false⟩

/-! ## Temporary-file state -/

/-- Temporary raster files currently on disk, plus a fresh-name counter. -/
structure TempFs where
  files : List Nat
  counter : Nat
deriving Repr, DecidableEq

/-- `tempfile.NamedTemporaryFile(delete=False)`: creates a fresh file. -/
def mkTemp (st : TempFs) : Nat × TempFs :=
  (st.counter, ⟨st.counter :: st.files, st.counter + 1⟩)

/-- `os.remove` of a temporary file. -/
def rmTemp (f : Nat) (st : TempFs) : TempFs :=
  ⟨st.files.erase f, st.counter⟩

/-! ## The attempt cascade of `process_image` (mrz_scanner.py lines 130-303) -/

/-- Oracle for every external call performed by `process_image`.  `.error`
of an `Except` value and a `true` failure flag stand for a raised
exception. -/
structure ImgOracle where
  openFail : Bool
  rotateFail : Int → Bool
  mkTempFail : Int → Region → Bool
  saveFail : Int → Region → Bool
  cropFail : Bool
  parseImg : Int → Region → Except Unit (Option ResultDict)
  rawTextOf : Int → Region → Except Unit String
  parseText : String → Except Unit (Option ResultDict)
  reopenFail : Bool
  ocrString : Region → Except Unit String

/-- LoopFlow of one rotation iteration: an early `return` with a result, or
`continue` with the next rotation. -/
inductive LoopFlow where
  | ret (d : ResultDict)
  | cont
deriving Repr, DecidableEq

/-- Text-based fallback parse inside a rotation iteration (lines 190-202):
fetch the raw text of the full region, and if its stripped length exceeds
10, re-parse the cleaned text; all exceptions are swallowed by the inner
`except: pass`. -/
def textFallback (o : ImgOracle) (angle : Int) : Option ResultDict × List Attempt :=
  match o.rawTextOf angle .full with
  | .error _ => (none, [])
  | .ok raw =>
    if 10 < (pyStrip raw).length then
      match o.parseText (cleanLines raw) with
      | .error _ => (none, [attText angle])
      | .ok none => (none, [attText angle])
      | .ok (some d) =>
        if acceptedDict d then
          (some { d with raw_text := some (cleanLines raw) }, [attText angle])
        else (none, [attText angle])
    else (none, [])

/-- Bottom-30% crop attempt (lines 204-223), reached only for rotation 0.
The crop is saved to a second temporary file before the try/finally that
deletes that file begins, so a raising save leaves the file behind. -/
def bottomBlock (o : ImgOracle) (st : TempFs) : LoopFlow × List Attempt × TempFs :=
  if o.cropFail then (.cont, [], st)
  else if o.mkTempFail 0 .bottom30 then (.cont, [], st)
  else if o.saveFail 0 .bottom30 then (.cont, [], (mkTemp st).2)
  else
    match o.parseImg 0 .bottom30 with
    | .error _ => (.cont, [attImg 0 .bottom30], rmTemp (mkTemp st).1 (mkTemp st).2)
    | .ok none => (.cont, [attImg 0 .bottom30], rmTemp (mkTemp st).1 (mkTemp st).2)
    | .ok (some d) =>
      if acceptedDict d then
        match o.rawTextOf 0 .bottom30 with
        | .error _ => (.cont, [attImg 0 .bottom30], rmTemp (mkTemp st).1 (mkTemp st).2)
        | .ok raw =>
          (.ret { d with raw_text := some raw }, [attImg 0 .bottom30],
            rmTemp (mkTemp st).1 (mkTemp st).2)
      else (.cont, [attImg 0 .bottom30], rmTemp (mkTemp st).1 (mkTemp st).2)

/-- Continuation of a rotation iteration after an unaccepted full-image
parse: text fallback, then (rotation 0 only) the bottom-crop attempt; the
outer `finally` removes the full-image temporary file on every path. -/
def rotAfterParse (o : ImgOracle) (angle : Int) (st1 : TempFs) (f1 : Nat) :
    LoopFlow × List Attempt × TempFs :=
  match (textFallback o angle).1 with
  | some d => (.ret d, attImg angle .full :: (textFallback o angle).2, rmTemp f1 st1)
  | none =>
    if angle = 0 then
      ((bottomBlock o st1).1,
        attImg angle .full :: (textFallback o angle).2 ++ (bottomBlock o st1).2.1,
        rmTemp f1 (bottomBlock o st1).2.2)
    else (.cont, attImg angle .full :: (textFallback o angle).2, rmTemp f1 st1)

/-- One iteration of the rotation loop (lines 160-232): rotate, save the
full image to a temporary file, image-based parse, then `rotAfterParse`.
An exception anywhere in the iteration is caught at line 228 and turns into
`continue`. -/
def rotBlock (o : ImgOracle) (angle : Int) (st : TempFs) : LoopFlow × List Attempt × TempFs :=
  if o.rotateFail angle then (.cont, [], st)
  else if o.mkTempFail angle .full then (.cont, [], st)
  else if o.saveFail angle .full then (.cont, [], rmTemp (mkTemp st).1 (mkTemp st).2)
  else
    match o.parseImg angle .full with
    | .error _ => (.cont, [attImg angle .full], rmTemp (mkTemp st).1 (mkTemp st).2)
    | .ok (some d) =>
      if acceptedDict d then
        match o.rawTextOf angle .full with
        | .error _ => (.cont, [attImg angle .full], rmTemp (mkTemp st).1 (mkTemp st).2)
        | .ok raw =>
          (.ret { d with raw_text := some raw }, [attImg angle .full],
            rmTemp (mkTemp st).1 (mkTemp st).2)
      else rotAfterParse o angle (mkTemp st).2 (mkTemp st).1
    | .ok none => rotAfterParse o angle (mkTemp st).2 (mkTemp st).1

/-- The main rotation loop over the selected rotation list. -/
def runMain (o : ImgOracle) : List Int → TempFs → Option ResultDict × List Attempt × TempFs
  | [], st => (none, [], st)
  | angle :: rest, st =>
    match rotBlock o angle st with
    | (.ret d, tr, st1) => (some d, tr, st1)
    | (.cont, tr, st1) =>
      ((runMain o rest st1).1, tr ++ (runMain o rest st1).2.1, (runMain o rest st1).2.2)

/-- One region of the direct-OCR fallback (lines 272-295): OCR the region
with the mrz language, and when more than 10 stripped characters come back,
re-parse the cleaned text; exceptions continue to the next region. -/
def ocrRegionBlock (o : ImgOracle) (reg : Region) : Option ResultDict × List Attempt :=
  match o.ocrString reg with
  | .error _ => (none, [attOcr reg])
  | .ok t =>
    if 10 < (pyStrip t).length then
      match o.parseText (cleanLines t) with
      | .error _ => (none, [attOcr reg])
      | .ok none => (none, [attOcr reg])
      | .ok (some d) =>
        if acceptedDict d then
          (some { d with raw_text := some (cleanLines t) }, [attOcr reg])
        else (none, [attOcr reg])
    else (none, [attOcr reg])

/-- The direct-OCR fallback pass (lines 234-298): a single 90-degree
rotation with the bottom-30% region first, then the full region.  An
exception in the prologue (re-open, rotate, crop) is caught at line 296 and
the function falls through to `return None`. -/
def ocrFallback (o : ImgOracle) : Option ResultDict × List Attempt :=
  if o.reopenFail then (none, [])
  else
    match ocrRegionBlock o .bottom30 with
    | (some d, tr) => (some d, tr)
    | (none, tr1) =>
      ((ocrRegionBlock o .full).1, tr1 ++ (ocrRegionBlock o .full).2)

/-- Rotation list of the main cascade (lines 155-158). -/
def rotationsToTry (useFastPsm : Bool) : List Int :=
  if useFastPsm then [0, -90] else [0, -90, 90]

/-- Final state of one `process_image` call: the returned value (a success
dictionary, `none`, or an error dictionary), the attempts evaluated by the
main cascade, the attempts evaluated by the direct-OCR fallback, and the
temporary-file state. -/
structure ImgOut where
  result : Option ResultDict
  mainTrace : List Attempt
  ocrTrace : List Attempt
  st : TempFs
deriving Repr, DecidableEq

/-- `process_image` (lines 130-303): open the image (failure hits the outer
handler at line 302 and returns an error dictionary), run the main rotation
loop, then the direct-OCR fallback, returning `none` when everything is
exhausted. -/
def processImageRun (o : ImgOracle) (useFastPsm : Bool) (st : TempFs) : ImgOut :=
  if o.openFail then ⟨some { error := some "image open failed" }, [], [], st⟩
  else
    match (runMain o (rotationsToTry useFastPsm) st).1 with
    | some d =>
      ⟨some d, (runMain o (rotationsToTry useFastPsm) st).2.1, [],
        (runMain o (rotationsToTry useFastPsm) st).2.2⟩
    | none =>
      ⟨(ocrFallback o).1, (runMain o (rotationsToTry useFastPsm) st).2.1,
        (ocrFallback o).2, (runMain o (rotationsToTry useFastPsm) st).2.2⟩

/-! ## `_process_single_page` (mrz_scanner.py lines 306-389) -/

/-- Default DPI configuration (lines 30-31). -/
def PDF_DPI : Nat := 300

/-- Reduced DPI used for priority pages (line 31). -/
def PDF_DPI_FAST : Nat := 200

/-- Oracle for the per-page external calls of `_process_single_page`. -/
structure PageOracle where
  convert : Except Unit (Option Nat)
  mkTempFail : Bool
  saveFail : Bool
  inspectionSaveFail : Bool
  img : ImgOracle

/-- Outcome of one `_process_single_page` call: result, temporary-file
state, the DPI passed to the rasterizer, the `use_fast_psm` flag passed to
`process_image` (when it was invoked), and whether the permanent page-3
inspection image was written. -/
structure PageOut where
  result : Option ResultDict
  st : TempFs
  dpiUsed : Nat
  imgFastFlag : Option Bool
  inspectionSaved : Bool
deriving Repr, DecidableEq

/-- `_process_single_page` (lines 306-389): rasterize the page at the tier
DPI, save it to a temporary file, optionally keep a permanent page-3
inspection copy, run `process_image` with `use_fast_psm := use_fast_dpi`,
attach page provenance on success; the temporary page file is removed by the
`finally` at line 381, and every exception is absorbed into `None` by the
handler at line 386. -/
def processSinglePage (o : PageOracle) (pageNum : Int) (totalPages : Nat)
    (useFastDpi : Bool) (st : TempFs) : PageOut :=
  match o.convert with
  | .error _ => ⟨none, st, if useFastDpi then PDF_DPI_FAST else PDF_DPI, none, false⟩
  | .ok none => ⟨none, st, if useFastDpi then PDF_DPI_FAST else PDF_DPI, none, false⟩
  | .ok (some _) =>
    if o.mkTempFail then ⟨none, st, if useFastDpi then PDF_DPI_FAST else PDF_DPI, none, false⟩
    else if o.saveFail then
      ⟨none, rmTemp (mkTemp st).1 (mkTemp st).2,
        if useFastDpi then PDF_DPI_FAST else PDF_DPI, none, false⟩
    else if pageNum == 3 && o.inspectionSaveFail then
      ⟨none, rmTemp (mkTemp st).1 (mkTemp st).2,
        if useFastDpi then PDF_DPI_FAST else PDF_DPI, none, false⟩
    else
      match (processImageRun o.img useFastDpi (mkTemp st).2).result with
      | some d =>
        if acceptedDict d then
          ⟨some { d with page_number := some pageNum, total_pages := some totalPages },
            rmTemp (mkTemp st).1 (processImageRun o.img useFastDpi (mkTemp st).2).st,
            if useFastDpi then PDF_DPI_FAST else PDF_DPI, some useFastDpi, pageNum == 3⟩
        else
          ⟨none, rmTemp (mkTemp st).1 (processImageRun o.img useFastDpi (mkTemp st).2).st,
            if useFastDpi then PDF_DPI_FAST else PDF_DPI, some useFastDpi, pageNum == 3⟩
      | none =>
        ⟨none, rmTemp (mkTemp st).1 (processImageRun o.img useFastDpi (mkTemp st).2).st,
          if useFastDpi then PDF_DPI_FAST else PDF_DPI, some useFastDpi, pageNum == 3⟩

/-! ## The scheduler of `process_pdf` (mrz_scanner.py lines 392-580) -/

/-- `pages_to_check = min(total_pages, max_pages) if max_pages else
total_pages` (line 419); note Python truthiness: `max_pages = 0` counts as
absent. -/
def pagesToCheckVal (totalPages : Nat) (maxPages : Option Int) : Int :=
  match maxPages with
  | some m => if m ≠ 0 then min (totalPages : Int) m else (totalPages : Int)
  | none => (totalPages : Int)

/-- Validation of the `start_page` hint (lines 425-433): dropped when below
1, above the page count, or above `pages_to_check`. -/
def validStartPage (totalPages : Nat) (pagesToCheck : Int) (startPage : Option Int) :
    Option Int :=
  match startPage with
  | none => none
  | some s =>
    if s < 1 ∨ s > (totalPages : Int) then none
    else if s > pagesToCheck then none
    else some s

/-- Default page order (lines 474-485): `[2, 1, 3, ..., pages_to_check]`
for a multi-page document, `[1]` otherwise. -/
def defaultPageOrder (totalPages : Nat) (pagesToCheck : Int) : List Int :=
  if 2 ≤ (totalPages : Int) ∧ 2 ≤ pagesToCheck then
    2 :: 1 :: pyRange 3 (pagesToCheck + 1)
  else [1]

/-- Remaining pages after a valid start page (line 458): all pages from 1
to `pages_to_check` except the start page, in ascending order. -/
def remainingAfterStart (pagesToCheck : Int) (s : Int) : List Int :=
  (pyRange 1 (pagesToCheck + 1)).filter (fun p => p ≠ s)

/-- A scheduled page with its resolution tier (`fastTier = true` means
`use_fast_dpi=True`, the priority-page call at line 448). -/
structure PageJob where
  page : Int
  fastTier : Bool
deriving Repr, DecidableEq

/-- The dispatch order of `process_pdf`: the validated start page first with
the fast tier, then the remaining pages at the standard tier (lines
436-473); without a valid start page, the default order at the standard
tier. -/
def processPdfSchedule (totalPages : Nat) (maxPages : Option Int) (startPage : Option Int) :
    List PageJob :=
  let ptc := pagesToCheckVal totalPages maxPages
  match validStartPage totalPages ptc startPage with
  | some s => ⟨s, true⟩ :: (remainingAfterStart ptc s).map (fun p => ⟨p, false⟩)
  | none => (defaultPageOrder totalPages ptc).map (fun p => ⟨p, false⟩)

/-! ## The executor of `process_pdf` -/

/-- Raw outcome of one scheduled page: a returned value, or a raised
exception (absorbed to `None` by `_process_single_page`, lines 386-389, and
by the `future.result()` handler, lines 533-536). -/
inductive PageRunOut where
  | ok (r : Option ResultDict)
  | exn
deriving Repr, DecidableEq

/-- Exception absorption at the per-page boundary. -/
def absorbPageExn : PageRunOut → Option ResultDict
  | .ok r => r
  | .exn => none

/-- Environment of one `process_pdf` call: the page-count step (whose
`.error` stands for an exception raised while obtaining the page count,
outside every per-page boundary), the per-page outcomes keyed by page
number and tier, and the completion order of parallel workers. -/
structure PdfEnv where
  info : Except String Nat
  run : Int → Bool → PageRunOut
  perm : List Int → List Int

/-- Terminal outcome of `process_pdf`: a success dictionary, `None`, or an
error dictionary. -/
inductive PdfOutcome where
  | success (d : ResultDict)
  | notFound
  | error (msg : String)
deriving Repr, DecidableEq

/-- First-success-wins loop over pages at the standard tier (sequential
lines 550-558; parallel completion loop lines 514-536). -/
def firstSuccess (env : PdfEnv) : List Int → PdfOutcome
  | [] => .notFound
  | p :: rest =>
    match absorbPageExn (env.run p false) with
    | some d => if acceptedDict d then .success d else firstSuccess env rest
    | none => firstSuccess env rest

/-- Dispatch of the scheduled non-priority pages (lines 495-568): parallel
(arbitrary completion order) when allowed and at least 3 pages remain,
sequential otherwise. -/
def runScheduled (env : PdfEnv) (remaining : List Int) (parallel : Bool) : PdfOutcome :=
  if parallel && decide (3 ≤ remaining.length) then firstSuccess env (env.perm remaining)
  else firstSuccess env remaining

/-- Continuation after an unsuccessful priority page (lines 457-473). -/
def afterStartPage (env : PdfEnv) (ptc s : Int) (parallel : Bool) : PdfOutcome :=
  if (remainingAfterStart ptc s).isEmpty then .notFound
  else runScheduled env (remainingAfterStart ptc s) parallel

/-- `process_pdf` (lines 392-580): obtain the page count (an exception here
reaches the outer handler at line 570 and yields an error dictionary),
validate the start page, process it first at the fast tier when valid, then
run the scheduled remaining pages. -/
def processPdfPages (env : PdfEnv) (maxPages : Option Int) (parallel : Bool)
    (startPage : Option Int) (totalPages : Nat) : PdfOutcome :=
  match validStartPage totalPages (pagesToCheckVal totalPages maxPages) startPage with
  | some s =>
    match absorbPageExn (env.run s true) with
    | some d =>
      if acceptedDict d then .success d
      else afterStartPage env (pagesToCheckVal totalPages maxPages) s parallel
    | none => afterStartPage env (pagesToCheckVal totalPages maxPages) s parallel
  | none =>
    runScheduled env (defaultPageOrder totalPages (pagesToCheckVal totalPages maxPages)) parallel

/-- The outer dispatch of `process_pdf`: an exception while obtaining the
page count reaches the handler at line 570 and becomes the error
dictionary. -/
def processPdf (env : PdfEnv) (maxPages : Option Int) (parallel : Bool)
    (startPage : Option Int) : PdfOutcome :=
  match env.info with
  | .error e => .error e
  | .ok totalPages => processPdfPages env maxPages parallel startPage totalPages

/-! ## `convert_pdf_page_to_image` (mrz_scanner.py lines 70-127) -/

/-- Which rasterizer libraries imported successfully (lines 14-23):
`pymupdf` means `fitz` imported, in which case the name `convert_from_path`
is never bound; `pdf2imageOnly` means `fitz` failed and pdf2image imported;
`neither` means both failed and `convert_from_path` is `None`. -/
inductive PdfLibConfig where
  | pymupdf
  | pdf2imageOnly
  | neither
deriving Repr, DecidableEq

/-- Oracle for the rasterizer calls of `convert_pdf_page_to_image`. -/
structure RasterEnv where
  config : PdfLibConfig
  fitzOpen : Except Unit Nat
  fitzRender : Int → Except Unit Nat
  p2iConvert : Int → Except Unit (List Nat)

/-- The pdf2image fallback at lines 118-127, reached after the PyMuPDF
branch failed or was unavailable.  Under the `pymupdf` import configuration
the name `convert_from_path` was never bound, so line 119 raises a
`NameError` that propagates to the caller. -/
def convertFallback (env : RasterEnv) (pageNum : Int) : Except String (Option Nat) :=
  match env.config with
  | .pymupdf => .error "NameError: name convert_from_path is not defined"
  | .pdf2imageOnly =>
    match env.p2iConvert pageNum with
    | .ok (img :: _) => .ok (some img)
    | .ok [] => .ok none
    | .error _ => .ok none
  | .neither => .ok none

/-- `convert_pdf_page_to_image` (lines 70-127): with PyMuPDF, open or reuse
the document, return `None` when `page_num` exceeds the page count, render
the page, and on any exception fall through to the pdf2image fallback.  The
`Except.error` result means an exception propagates to the caller. -/
def convertPdfPageToImage (env : RasterEnv) (pageNum : Int) (docPages : Option Nat) :
    Except String (Option Nat) :=
  if env.config = .pymupdf then
    match (match docPages with | some n => Except.ok n | none => env.fitzOpen) with
    | .error _ => convertFallback env pageNum
    | .ok count =>
      if pageNum > (count : Int) then .ok none
      else
        match env.fitzRender (pageNum - 1) with
        | .ok img => .ok (some img)
        | .error _ => convertFallback env pageNum
  else convertFallback env pageNum

/-! ## The scan endpoints of src/api/app.py (PDF branch) -/

/-- The parameter names of `process_pdf`'s signature (mrz_scanner.py line
392). -/
def processPdfParamNames : List String :=
  ["pdf_path", "show_progress", "max_pages", "parallel", "start_page"]

/-- The keyword arguments passed by all three endpoints (app.py lines 356,
529, 697): `pdf_path` is positional, the rest are keywords. -/
def apiProcessPdfCallKeywords : List String :=
  ["show_progress", "max_pages", "start_page", "start_page_only"]

/-- The TypeError message produced when a call passes a keyword the callee
does not accept. -/
def typeErrorMsg : String :=
  "TypeError: process_pdf() got an unexpected keyword argument start_page_only"

/-- The endpoint call `process_pdf(temp_path, show_progress=False,
max_pages=..., start_page=..., start_page_only=...)`: Python binds the
keywords against the signature before running the body, raising `TypeError`
on any unexpected keyword. -/
def callProcessPdfFromApi (env : PdfEnv) (maxPages startPage : Option Int)
    (_startPageOnly : Bool) : Except String PdfOutcome :=
  if apiProcessPdfCallKeywords.all (fun k => processPdfParamNames.contains k) then
    .ok (processPdf env maxPages true startPage)
  else
    .error typeErrorMsg

/-- HTTP response shape used by all three endpoints. -/
inductive ApiResponse where
  | okSuccess (d : ResultDict)
  | okFailure
  | clientError (msg : String)
  | serverError (msg : String)
deriving Repr, DecidableEq

/-- HTTP status code of a response. -/
def ApiResponse.httpCode : ApiResponse → Nat
  | .okSuccess _ => 200
  | .okFailure => 200
  | .clientError _ => 400
  | .serverError _ => 500

/-- JSON `status` field of a response. -/
def ApiResponse.statusField : ApiResponse → String
  | .okSuccess _ => "success"
  | .okFailure => "failure"
  | .clientError _ => "error"
  | .serverError _ => "error"

/-- Response construction from a `process_pdf` call (app.py lines 352-393):
a propagated exception reaches the handler at line 388 and becomes a 500
error; otherwise a dictionary carrying a `surname` key is a 200 success, an
error dictionary is a 500 error, and anything else is a 200 failure. -/
def respondPdf (r : Except String PdfOutcome) : ApiResponse :=
  match r with
  | .error e => .serverError ("Internal server error: " ++ e)
  | .ok (.success d) => if d.surname ≠ none then .okSuccess d else .okFailure
  | .ok (.error e) => .serverError e
  | .ok .notFound => .okFailure

/-- Response construction from a `process_image` call (same checks). -/
def respondImage (r : Option ResultDict) : ApiResponse :=
  match r with
  | some d =>
    if d.surname ≠ none then .okSuccess d
    else if d.error ≠ none then .serverError ((d.error).getD "")
    else .okFailure
  | none => .okFailure

/-- `filename.lower().endswith(".pdf")` (app.py lines 344, 517). -/
def isPdfFilename (name : String) : Bool :=
  pyEndsWith (pyLower name) ".pdf"

/-- Request to `/scan/base64` after transport decoding. -/
structure Base64Request where
  hasBody : Bool
  hasFile : Bool
  b64ok : Bool
  filename : String
  maxPages : Option Int
  startPage : Option Int
  startPageOnly : Bool

/-- `/scan/base64` handler (app.py lines 200-393), with `imgRes` the
outcome of `process_image` on non-PDF uploads. -/
def scanMrzBase64 (env : PdfEnv) (imgRes : Option ResultDict) (req : Base64Request) :
    ApiResponse :=
  if !req.hasBody then .clientError "Request must be JSON with file and filename fields"
  else if !req.hasFile then .clientError "Missing file field with base64 encoded data"
  else if !req.b64ok then .clientError "Invalid base64 encoding"
  else if isPdfFilename req.filename then
    respondPdf (callProcessPdfFromApi env req.maxPages req.startPage req.startPageOnly)
  else respondImage imgRes

/-- Request to `/scan/file` after transport decoding. -/
structure FileRequest where
  hasFile : Bool
  filename : String
  maxPages : Option Int
  startPage : Option Int
  startPageOnly : Bool

/-- `/scan/file` handler (app.py lines 395-566). -/
def scanMrzFile (env : PdfEnv) (imgRes : Option ResultDict) (req : FileRequest) :
    ApiResponse :=
  if !req.hasFile then .clientError "Missing file in form data"
  else if isPdfFilename req.filename then
    respondPdf (callProcessPdfFromApi env req.maxPages req.startPage req.startPageOnly)
  else respondImage imgRes

/-- Request to `/scan/url` after transport decoding; `urlPath` is
`urlparse(url).path`. -/
structure UrlRequest where
  hasUrl : Bool
  downloadOk : Bool
  urlPath : String
  maxPages : Option Int
  startPage : Option Int
  startPageOnly : Bool

/-- `/scan/url` handler (app.py lines 568-730). -/
def scanFromUrl (env : PdfEnv) (imgRes : Option ResultDict) (req : UrlRequest) :
    ApiResponse :=
  if !req.hasUrl then .clientError "Missing url field"
  else if !req.downloadOk then .clientError "Failed to download file from URL"
  else if pyEndsWith (pyLower req.urlPath) ".pdf" then
    respondPdf (callProcessPdfFromApi env req.maxPages req.startPage req.startPageOnly)
  else respondImage imgRes

/-! ## Static cascade orders -/

/-- The attempts one rotation iteration can evaluate, in their source
order: full-region image parse, text re-parse, and (rotation 0 only) the
bottom-crop image parse. -/
def mainBlockOrder (angle : Int) : List Attempt :=
  [attImg angle .full, attText angle] ++ (if angle = 0 then [attImg 0 .bottom30] else [])

/-- Full static evaluation order of the main cascade. -/
def mainCascadeOrder (useFastPsm : Bool) : List Attempt :=
  ((rotationsToTry useFastPsm).map mainBlockOrder).flatten

/-- Static evaluation order of the direct-OCR fallback. -/
def ocrOrder : List Attempt :=
  [attOcr .bottom30, attOcr .full]

/-- Static evaluation order of the whole cascade, as the code runs it. -/
def cascadeOrderCode (useFastPsm : Bool) : List Attempt :=
  mainCascadeOrder useFastPsm ++ ocrOrder

/-- The evaluation order asserted by the specification: rotation 0 full,
rotation 0 bottom crop, then the text re-parse, then rotations -90 and 90
full region, then the direct-OCR fallback pairs. -/
def cascadeOrderSpec : List Attempt :=
  [attImg 0 .full, attImg 0 .bottom30, attText 0,
   attImg (-90) .full, attImg 90 .full,
   attOcr .bottom30, attOcr .full]

/-- Effective page ceiling as worded by the claims: `min(total_pages,
max_pages)` when `max_pages` is given, else `total_pages`. -/
def claimedCeiling (totalPages : Nat) (maxPages : Option Int) : Int :=
  match maxPages with
  | some m => min (totalPages : Int) m
  | none => (totalPages : Int)

/-! ## Shared concrete environments for witnesses and counterexamples -/

/-- A PDF environment with 5 pages where every page yields nothing. -/
def envAllNone : PdfEnv :=
  { info := .ok 5, run := fun _ _ => .ok none, perm := fun l => l }

/-! ## Scheduler facts -/

/-- The effective page count never exceeds the total page count. -/
theorem pagesToCheckVal_le (totalPages : Nat) (maxPages : Option Int) :
    pagesToCheckVal totalPages maxPages ≤ (totalPages : Int) := by
  cases maxPages with
  | none => simp [pagesToCheckVal]
  | some m =>
    simp only [pagesToCheckVal]
    split <;> omega

/-- C4: with no valid start-page hint, the schedule is `[2, 1, 3, ..., c]`
at the standard tier when the effective ceiling `c = min(total, max_pages)`
(else `total`) is at least 2, and `[1]` when it equals 1. -/
theorem c4_default_page_order (totalPages : Nat) (maxPages startPage : Option Int)
    (hinv : validStartPage totalPages (pagesToCheckVal totalPages maxPages) startPage = none) :
    (2 ≤ claimedCeiling totalPages maxPages →
      processPdfSchedule totalPages maxPages startPage
        = (2 :: 1 :: pyRange 3 (claimedCeiling totalPages maxPages + 1)).map
            (fun p => { page := p, fastTier := false })) ∧
    (claimedCeiling totalPages maxPages = 1 →
      processPdfSchedule totalPages maxPages startPage
        = [{ page := 1, fastTier := false }]) := by
  constructor
  · intro h2
    have hceil : pagesToCheckVal totalPages maxPages = claimedCeiling totalPages maxPages := by
      cases maxPages with
      | none => rfl
      | some m =>
        simp only [claimedCeiling] at h2 ⊢
        simp only [pagesToCheckVal]
        have hm : m ≠ 0 := by omega
        simp [hm]
    have htot : 2 ≤ (totalPages : Int) := by
      have := pagesToCheckVal_le totalPages maxPages
      omega
    rw [hceil] at hinv
    simp only [processPdfSchedule, hceil, hinv, defaultPageOrder]
    rw [if_pos ⟨htot, h2⟩]
  · intro h1
    have hceil : pagesToCheckVal totalPages maxPages = claimedCeiling totalPages maxPages := by
      cases maxPages with
      | none => rfl
      | some m =>
        simp only [claimedCeiling] at h1 ⊢
        simp only [pagesToCheckVal]
        have hm : m ≠ 0 := by omega
        simp [hm]
    rw [hceil, h1] at hinv
    simp only [processPdfSchedule, hceil, h1, hinv, defaultPageOrder]
    norm_num

/-- C4 witness: a 5-page document with no hints is scheduled `[2,1,3,4,5]`,
and a 1-page document `[1]`. -/
theorem c4_default_page_order_witness :
    processPdfSchedule 5 none none
      = (2 :: 1 :: pyRange 3 (claimedCeiling 5 none + 1)).map
          (fun p => { page := p, fastTier := false }) ∧
    processPdfSchedule 1 none none = [{ page := 1, fastTier := false }] :=
  ⟨(c4_default_page_order 5 none none rfl).1 (by decide),
   (c4_default_page_order 1 none none rfl).2 (by decide)⟩

/-- C5: a start page inside `[1, pages_to_check]` is scheduled first, alone,
at the fast tier (fast DPI and fast recognition mode), followed by the other
pages of `[1, pages_to_check]` in ascending order at the standard tier; an
out-of-range start page falls back to the default ordering; and when the
priority page itself succeeds, `process_pdf` returns its result without
consulting any further page. -/
theorem c5_priority_page_first
    (totalPages : Nat) (maxPages : Option Int) (s : Int)
    (o : PageOracle) (p : Int) (t : Nat) (st : TempFs)
    (env : PdfEnv) (parallel : Bool) (d : ResultDict) :
    (1 ≤ s → s ≤ pagesToCheckVal totalPages maxPages →
      processPdfSchedule totalPages maxPages (some s)
        = { page := s, fastTier := true } ::
            ((pyRange 1 (pagesToCheckVal totalPages maxPages + 1)).filter (fun q => q ≠ s)).map
              (fun q => { page := q, fastTier := false })) ∧
    (s < 1 ∨ pagesToCheckVal totalPages maxPages < s →
      processPdfSchedule totalPages maxPages (some s)
        = (defaultPageOrder totalPages (pagesToCheckVal totalPages maxPages)).map
            (fun q => { page := q, fastTier := false })) ∧
    ((processSinglePage o p t true st).dpiUsed = PDF_DPI_FAST ∧
      ((processSinglePage o p t true st).imgFastFlag = none ∨
        (processSinglePage o p t true st).imgFastFlag = some true)) ∧
    (env.info = .ok totalPages →
      1 ≤ s → s ≤ pagesToCheckVal totalPages maxPages →
      absorbPageExn (env.run s true) = some d → acceptedDict d = true →
      processPdf env maxPages parallel (some s) = .success d) := by
  have hle := pagesToCheckVal_le totalPages maxPages
  refine ⟨?_, ?_, ?_, ?_⟩
  · intro h1 hs
    have hval : validStartPage totalPages (pagesToCheckVal totalPages maxPages) (some s)
        = some s := by
      simp only [validStartPage]
      rw [if_neg (by omega), if_neg (by omega)]
    simp only [processPdfSchedule, hval, remainingAfterStart]
  · intro hs
    have hval : validStartPage totalPages (pagesToCheckVal totalPages maxPages) (some s)
        = none := by
      simp only [validStartPage]
      by_cases hst : s < 1 ∨ s > (totalPages : Int)
      · rw [if_pos hst]
      · rw [if_neg hst, if_pos (by omega)]
    simp only [processPdfSchedule, hval]
  · unfold processSinglePage
    rcases o.convert with _ | img
    · exact ⟨rfl, Or.inl rfl⟩
    · rcases img with _ | i
      · exact ⟨rfl, Or.inl rfl⟩
      · dsimp only
        split
        · exact ⟨rfl, Or.inl rfl⟩
        · split
          · exact ⟨rfl, Or.inl rfl⟩
          · split
            · exact ⟨rfl, Or.inl rfl⟩
            · split
              · split
                · exact ⟨rfl, Or.inr rfl⟩
                · exact ⟨rfl, Or.inr rfl⟩
              · exact ⟨rfl, Or.inr rfl⟩
  · intro hinfo h1 hs hrun hacc
    have hval : validStartPage totalPages (pagesToCheckVal totalPages maxPages) (some s)
        = some s := by
      simp only [validStartPage]
      rw [if_neg (by omega), if_neg (by omega)]
    simp only [processPdf, processPdfPages, hinfo, hval, hrun, hacc, if_true]

/-- C5 witness: a 5-page document with start page 3 is scheduled
`[3 fast, 1, 2, 4, 5 standard]`, and a succeeding priority page ends the
search at once. -/
theorem c5_priority_page_first_witness :
    processPdfSchedule 5 none (some 3)
      = { page := 3, fastTier := true } ::
          ((pyRange 1 (pagesToCheckVal 5 none + 1)).filter (fun q => q ≠ 3)).map
            (fun q => { page := q, fastTier := false }) :=
  (c5_priority_page_first 5 none 3
    { convert := .error (), mkTempFail := false, saveFail := false,
      inspectionSaveFail := false,
      img := { openFail := true, rotateFail := fun _ => false,
               mkTempFail := fun _ _ => false, saveFail := fun _ _ => false,
               cropFail := false, parseImg := fun _ _ => .ok none,
               rawTextOf := fun _ _ => .ok "", parseText := fun _ => .ok none,
               reopenFail := false, ocrString := fun _ => .error () } }
    1 1 ⟨[], 0⟩ envAllNone true { }).1 (by decide) (by decide)

/-! ## Endpoint claims -/

/-- C2: every PDF request to /scan/base64, /scan/file or /scan/url reaches a
`process_pdf` call carrying the keyword `start_page_only`, which the
signature of `process_pdf` does not accept; the resulting TypeError is
caught by the endpoint handler, which answers status "error" with HTTP 500
regardless of the document's content. -/
theorem c2_pdf_endpoints_respond_500
    (env : PdfEnv) (imgRes : Option ResultDict)
    (reqB : Base64Request) (reqF : FileRequest) (reqU : UrlRequest)
    (hB1 : reqB.hasBody = true) (hB2 : reqB.hasFile = true) (hB3 : reqB.b64ok = true)
    (hB4 : isPdfFilename reqB.filename = true)
    (hF1 : reqF.hasFile = true) (hF2 : isPdfFilename reqF.filename = true)
    (hU1 : reqU.hasUrl = true) (hU2 : reqU.downloadOk = true)
    (hU3 : pyEndsWith (pyLower reqU.urlPath) ".pdf" = true) :
    scanMrzBase64 env imgRes reqB
        = .serverError ("Internal server error: " ++ typeErrorMsg) ∧
    scanMrzFile env imgRes reqF
        = .serverError ("Internal server error: " ++ typeErrorMsg) ∧
    scanFromUrl env imgRes reqU
        = .serverError ("Internal server error: " ++ typeErrorMsg) ∧
    (scanMrzBase64 env imgRes reqB).statusField = "error" ∧
    (scanMrzBase64 env imgRes reqB).httpCode = 500 := by
  have hkw : (apiProcessPdfCallKeywords.all fun k => processPdfParamNames.contains k)
      = false := by decide
  have hcall : ∀ mp sp spo, callProcessPdfFromApi env mp sp spo = .error typeErrorMsg := by
    intro mp sp spo
    unfold callProcessPdfFromApi
    rw [hkw]
    norm_num
  have hb : scanMrzBase64 env imgRes reqB
      = .serverError ("Internal server error: " ++ typeErrorMsg) := by
    simp [scanMrzBase64, hB1, hB2, hB3, hB4, hcall, respondPdf]
  have hf : scanMrzFile env imgRes reqF
      = .serverError ("Internal server error: " ++ typeErrorMsg) := by
    simp [scanMrzFile, hF1, hF2, hcall, respondPdf]
  have hu : scanFromUrl env imgRes reqU
      = .serverError ("Internal server error: " ++ typeErrorMsg) := by
    simp [scanFromUrl, hU1, hU2, hU3, hcall, respondPdf]
  exact ⟨hb, hf, hu, by rw [hb]; rfl, by rw [hb]; rfl⟩

/-- C2 witness: concrete PDF requests to the three endpoints all answer the
500 TypeError response. -/
theorem c2_pdf_endpoints_respond_500_witness :
    scanMrzBase64 envAllNone none
        { hasBody := true, hasFile := true, b64ok := true, filename := "Passport.PDF",
          maxPages := some 5, startPage := some 2, startPageOnly := false }
        = .serverError ("Internal server error: " ++ typeErrorMsg) ∧
    scanMrzFile envAllNone none
        { hasFile := true, filename := "doc.pdf", maxPages := none, startPage := none,
          startPageOnly := true }
        = .serverError ("Internal server error: " ++ typeErrorMsg) :=
  have h := c2_pdf_endpoints_respond_500 envAllNone none
    { hasBody := true, hasFile := true, b64ok := true, filename := "Passport.PDF",
      maxPages := some 5, startPage := some 2, startPageOnly := false }
    { hasFile := true, filename := "doc.pdf", maxPages := none, startPage := none,
      startPageOnly := true }
    { hasUrl := true, downloadOk := true, urlPath := "/bucket/scan.pdf", maxPages := none,
      startPage := none, startPageOnly := true }
    rfl rfl rfl (by decide) rfl (by decide) rfl rfl (by decide)
  ⟨h.1, h.2.1⟩

/-- C1: the priority-only search option documented by the API never reaches
`process_pdf`: the function's signature has no `start_page_only` parameter,
so a request that sets it (here: a 5-page PDF, priority page 3 in range,
priority page failing) is answered with a 500 TypeError response instead of
the NotFound outcome, while the same search without the flag would have
returned NotFound after checking the remaining pages. -/
theorem c1_priority_only_unimplemented :
    scanMrzBase64 envAllNone none
        { hasBody := true, hasFile := true, b64ok := true, filename := "passport.pdf",
          maxPages := none, startPage := some 3, startPageOnly := true }
        = .serverError ("Internal server error: " ++ typeErrorMsg) ∧
    scanMrzBase64 envAllNone none
        { hasBody := true, hasFile := true, b64ok := true, filename := "passport.pdf",
          maxPages := none, startPage := some 3, startPageOnly := true }
        ≠ .okFailure ∧
    processPdf envAllNone none true (some 3) = .notFound ∧
    "start_page_only" ∈ apiProcessPdfCallKeywords ∧
    "start_page_only" ∉ processPdfParamNames := by
  refine ⟨by decide, by decide, ?_, by decide, by decide⟩
  decide

/-! ## C8: the rasterizer wrapper -/

/-- A rasterizer environment with PyMuPDF importable, a 5-page document, and
failing page rasterization. -/
def rasterEnvRenderFail : RasterEnv :=
  { config := .pymupdf, fitzOpen := .ok 5,
    fitzRender := fun _ => .error (), p2iConvert := fun _ => .ok [] }

/-- C8: when PyMuPDF is the imported rasterizer and rendering a valid page
fails, `convert_pdf_page_to_image` does not return None: the fallback at
line 119 reads the never-bound name `convert_from_path` and a NameError
propagates to the caller.  The explicit guard only covers page numbers
above the page count (second conjunct), and a page number below 1 also
reaches the raising fallback when the render of the negative index fails
(third conjunct). -/
theorem c8_render_failure_raises_nameerror :
    convertPdfPageToImage rasterEnvRenderFail 2 none
        = .error "NameError: name convert_from_path is not defined" ∧
    convertPdfPageToImage rasterEnvRenderFail 7 none = .ok none ∧
    convertPdfPageToImage rasterEnvRenderFail 0 none
        = .error "NameError: name convert_from_path is not defined" :=
  ⟨rfl, rfl, rfl⟩

/-! ## Trace lemmas for the cascade -/

/-- The text fallback evaluates at most the single text attempt. -/
theorem textFallback_trace (o : ImgOracle) (angle : Int) :
    (textFallback o angle).2 = [] ∨ (textFallback o angle).2 = [attText angle] := by
  unfold textFallback
  repeat' (first | split | simp)

/-- The bottom-crop block evaluates at most the single bottom attempt. -/
theorem bottomBlock_trace (o : ImgOracle) (st : TempFs) :
    (bottomBlock o st).2.1 = [] ∨ (bottomBlock o st).2.1 = [attImg 0 .bottom30] := by
  unfold bottomBlock
  repeat' (first | split | simp)

/-- The post-parse continuation evaluates a subsequence of the block
order. -/
theorem rotAfterParse_trace_sublist (o : ImgOracle) (angle : Int) (st1 : TempFs) (f1 : Nat) :
    List.Sublist ((rotAfterParse o angle st1 f1).2.1) (mainBlockOrder angle) := by
  unfold rotAfterParse mainBlockOrder
  rcases textFallback_trace o angle with htf | htf <;>
    rcases bottomBlock_trace o st1 with hbb | hbb <;>
    cases hr : (textFallback o angle).1 <;>
    simp only [htf, hbb, hr] <;>
    by_cases ha : angle = 0 <;>
    simp only [ha, if_true, if_false, reduceIte] <;>
    first
      | exact (List.nil_sublist _).cons₂ _
      | exact ((List.nil_sublist _).cons₂ _).cons₂ _
      | exact (((List.nil_sublist _).cons₂ _).cons _).cons₂ _
      | exact (((List.nil_sublist _).cons₂ _).cons₂ _).cons₂ _

/-- One rotation iteration evaluates a subsequence of the block order. -/
theorem rotBlock_trace_sublist (o : ImgOracle) (angle : Int) (st : TempFs) :
    List.Sublist ((rotBlock o angle st).2.1) (mainBlockOrder angle) := by
  unfold rotBlock
  repeat' split
  all_goals
    first
      | exact List.nil_sublist _
      | exact (List.nil_sublist _).cons₂ _
      | exact rotAfterParse_trace_sublist o angle _ _

/-- The rotation loop evaluates a subsequence of the concatenated block
orders. -/
theorem runMain_trace_sublist (o : ImgOracle) (angles : List Int) (st : TempFs) :
    List.Sublist ((runMain o angles st).2.1) ((angles.map mainBlockOrder).flatten) := by
  induction angles generalizing st with
  | nil => exact List.nil_sublist _
  | cons a rest ih =>
    have hsub := rotBlock_trace_sublist o a st
    rcases hb : rotBlock o a st with ⟨fl, tr, st1⟩
    rw [hb] at hsub
    cases fl with
    | ret d =>
      simp only [runMain, hb, List.map_cons, List.flatten_cons]
      exact hsub.trans (List.sublist_append_left _ _)
    | cont =>
      simp only [runMain, hb, List.map_cons, List.flatten_cons]
      exact hsub.append (ih st1)

/-- Each fallback OCR region evaluates exactly its attempt. -/
theorem ocrRegionBlock_trace (o : ImgOracle) (reg : Region) :
    (ocrRegionBlock o reg).2 = [attOcr reg] := by
  unfold ocrRegionBlock
  repeat' (first | split | rfl)

/-- The OCR fallback evaluates a subsequence of its static order. -/
theorem ocrFallback_trace_sublist (o : ImgOracle) :
    List.Sublist ((ocrFallback o).2) ocrOrder := by
  unfold ocrFallback ocrOrder
  have h1 := ocrRegionBlock_trace o .bottom30
  have h2 := ocrRegionBlock_trace o .full
  split
  · exact List.nil_sublist _
  · rcases hb : ocrRegionBlock o .bottom30 with ⟨r, tr⟩
    rw [hb] at h1
    subst h1
    cases r with
    | some d =>
      simp only [hb]
      exact (List.nil_sublist _).cons₂ _
    | none =>
      simp only [hb, h2]
      exact List.Sublist.refl _

/-- The main-cascade trace is a subsequence of the static main order. -/
theorem processImageRun_mainTrace_sublist (o : ImgOracle) (fast : Bool) (st : TempFs) :
    List.Sublist ((processImageRun o fast st).mainTrace) (mainCascadeOrder fast) := by
  unfold processImageRun mainCascadeOrder
  split
  · exact List.nil_sublist _
  · split <;> exact runMain_trace_sublist o (rotationsToTry fast) st

/-- The full evaluation trace is a subsequence of the static code order. -/
theorem processImageRun_fullTrace_sublist (o : ImgOracle) (fast : Bool) (st : TempFs) :
    List.Sublist
      ((processImageRun o fast st).mainTrace ++ (processImageRun o fast st).ocrTrace)
      (cascadeOrderCode fast) := by
  have hmain := runMain_trace_sublist o (rotationsToTry fast) st
  have hocr := ocrFallback_trace_sublist o
  unfold processImageRun cascadeOrderCode mainCascadeOrder
  split
  · simp
  · split
    · simp only [List.append_nil]
      exact hmain.trans (List.sublist_append_left _ _)
    · exact hmain.append hocr

/-! ## C3 and C10: cascade order -/

/-- A raw recognized text longer than 10 characters. -/
def longMrzText : String := "P<UTOERIKSSON<<ANNA<MARIA<<<<<<<<<<<"

/-- Oracle on which every structured parse fails but recognition of the
rotation-0 full region yields a long raw text, driving the cascade through
the text re-parse, the bottom crop, the remaining rotations, and the OCR
fallback. -/
def o3 : ImgOracle :=
  { openFail := false
    rotateFail := fun _ => false
    mkTempFail := fun _ _ => false
    saveFail := fun _ _ => false
    cropFail := false
    parseImg := fun _ _ => .ok none
    rawTextOf := fun a r => if a = 0 ∧ r = .full then .ok longMrzText else .ok ""
    parseText := fun _ => .ok none
    reopenFail := false
    ocrString := fun _ => .error () }

/-- An oracle on which every attempt is reached and fails without an
exception (short raw text, no parse). -/
def oAllNoneImg : ImgOracle :=
  { openFail := false
    rotateFail := fun _ => false
    mkTempFail := fun _ _ => false
    saveFail := fun _ _ => false
    cropFail := false
    parseImg := fun _ _ => .ok none
    rawTextOf := fun _ _ => .ok ""
    parseText := fun _ => .ok none
    reopenFail := false
    ocrString := fun _ => .error () }

/-- C3cx: the cascade does not follow the order asserted by the
specification: on an image whose rotation-0 recognition yields a long raw
text, the text-based re-parse is evaluated before the bottom-30% crop, so
the evaluated trace is not a subsequence of the specified order. -/
theorem c3_spec_order_counterexample :
    ¬ List.Sublist
        ((processImageRun o3 false ⟨[], 0⟩).mainTrace
          ++ (processImageRun o3 false ⟨[], 0⟩).ocrTrace)
        cascadeOrderSpec := by
  decide

/-- C3: corrected cascade order: within each rotation the full-region image
parse comes first, then the text-based re-parse of its raw text (when more
than 10 stripped characters were recognized and the structured parse
failed), then (rotation 0 only) the bottom-30% crop; rotations run in the
order 0, -90, 90, followed by the direct-OCR fallback over the 90-degree
bottom-30% and full regions; every evaluated trace is a subsequence of this
fixed order. -/
theorem c3_cascade_order_corrected (o : ImgOracle) (fast : Bool) (st : TempFs) :
    List.Sublist
      ((processImageRun o fast st).mainTrace ++ (processImageRun o fast st).ocrTrace)
      (cascadeOrderCode fast) :=
  processImageRun_fullTrace_sublist o fast st

/-- C10: in fast mode the main cascade tries only rotations 0 and -90 (the
90-degree rotation of standard mode is skipped), so no main-cascade attempt
of a fast-mode pass has rotation 90. -/
theorem c10_fast_mode_skips_90 :
    rotationsToTry true = [0, -90] ∧ rotationsToTry false = [0, -90, 90] ∧
    (∀ (o : ImgOracle) (st : TempFs) (a : Attempt),
      a ∈ (processImageRun o true st).mainTrace →
      a.rotation = 0 ∨ a.rotation = -90) := by
  refine ⟨rfl, rfl, fun o st a ha => ?_⟩
  have hmem := (processImageRun_mainTrace_sublist o true st).subset ha
  have hord : mainCascadeOrder true
      = [attImg 0 .full, attText 0, attImg 0 .bottom30,
         attImg (-90) .full, attText (-90)] := by decide
  rw [hord] at hmem
  simp only [List.mem_cons, List.not_mem_nil, or_false] at hmem
  rcases hmem with rfl | rfl | rfl | rfl | rfl <;> simp [attImg, attText]

/-- C10 witness: the first fast-mode attempt on an all-failing image is the
rotation-0 full-region parse, whose rotation is 0. -/
theorem c10_fast_mode_skips_90_witness :
    (attImg 0 .full).rotation = 0 ∨ (attImg 0 .full).rotation = -90 :=
  c10_fast_mode_skips_90.2.2 oAllNoneImg ⟨[], 0⟩ (attImg 0 .full) (by decide)


/-! ## Success characterization for C6 -/

/-- A success produced by the text fallback is accepted and carries raw
text. -/
theorem textFallback_success (o : ImgOracle) (angle : Int) (d : ResultDict)
    (h : (textFallback o angle).1 = some d) :
    acceptedDict d = true ∧ d.raw_text ≠ none := by
  unfold textFallback at h
  repeat' split at h
  all_goals simp_all [acceptedDict]
  subst h
  exact ⟨by assumption, by simp⟩

/-- A success produced by the bottom-crop block is accepted and carries raw
text. -/
theorem bottomBlock_success (o : ImgOracle) (st : TempFs) (d : ResultDict)
    (h : (bottomBlock o st).1 = .ret d) :
    acceptedDict d = true ∧ d.raw_text ≠ none := by
  unfold bottomBlock at h
  repeat' split at h
  all_goals simp_all [acceptedDict]
  subst h
  exact ⟨by assumption, by simp⟩

/-- A success produced by the post-parse continuation is accepted and
carries raw text. -/
theorem rotAfterParse_success (o : ImgOracle) (angle : Int) (st1 : TempFs) (f1 : Nat)
    (d : ResultDict) (h : (rotAfterParse o angle st1 f1).1 = .ret d) :
    acceptedDict d = true ∧ d.raw_text ≠ none := by
  unfold rotAfterParse at h
  repeat' split at h
  all_goals first
    | exact bottomBlock_success o st1 d h
    | simp_all
  rename_i d0 hd0
  subst h
  exact textFallback_success o angle d0 hd0

/-- A success produced by one rotation iteration is accepted and carries
raw text. -/
theorem rotBlock_success (o : ImgOracle) (angle : Int) (st : TempFs) (d : ResultDict)
    (h : (rotBlock o angle st).1 = .ret d) :
    acceptedDict d = true ∧ d.raw_text ≠ none := by
  unfold rotBlock at h
  repeat' split at h
  all_goals first
    | exact rotAfterParse_success o angle _ _ d h
    | simp_all [acceptedDict]
  subst h
  exact ⟨by assumption, by simp⟩

/-- A success produced by the rotation loop is accepted and carries raw
text. -/
theorem runMain_success (o : ImgOracle) (angles : List Int) (st : TempFs) (d : ResultDict)
    (h : (runMain o angles st).1 = some d) :
    acceptedDict d = true ∧ d.raw_text ≠ none := by
  induction angles generalizing st with
  | nil => simp [runMain] at h
  | cons a rest ih =>
    have hrb := rotBlock_success o a st
    rcases hb : rotBlock o a st with ⟨fl, tr, st1⟩
    rw [hb] at hrb
    cases fl with
    | ret d0 =>
      simp only [runMain, hb, Option.some.injEq] at h
      subst h
      exact hrb d0 rfl
    | cont =>
      simp only [runMain, hb] at h
      exact ih st1 h

/-- A success produced by one fallback OCR region is accepted and carries
raw text. -/
theorem ocrRegionBlock_success (o : ImgOracle) (reg : Region) (d : ResultDict)
    (h : (ocrRegionBlock o reg).1 = some d) :
    acceptedDict d = true ∧ d.raw_text ≠ none := by
  unfold ocrRegionBlock at h
  repeat' split at h
  all_goals simp_all [acceptedDict]
  subst h
  exact ⟨by assumption, by simp⟩

/-- A success produced by the OCR fallback is accepted and carries raw
text. -/
theorem ocrFallback_success (o : ImgOracle) (d : ResultDict)
    (h : (ocrFallback o).1 = some d) :
    acceptedDict d = true ∧ d.raw_text ≠ none := by
  unfold ocrFallback at h
  split at h
  · simp at h
  · rcases hb : ocrRegionBlock o .bottom30 with ⟨r, tr⟩
    rw [hb] at h
    cases r with
    | some d0 =>
      have hs : (ocrRegionBlock o .bottom30).1 = some d0 := by rw [hb]
      have hres := ocrRegionBlock_success o .bottom30 d0 hs
      simp only [Option.some.injEq] at h
      rwa [← h]
    | none =>
      simp only at h
      exact ocrRegionBlock_success o .full d h

/-- A fully reachable accepted first attempt makes the rotation iteration
return it with the raw text attached. -/
theorem rotBlock_first_success (o : ImgOracle) (angle : Int) (st : TempFs)
    (d : ResultDict) (raw : String)
    (h1 : o.rotateFail angle = false) (h2 : o.mkTempFail angle .full = false)
    (h3 : o.saveFail angle .full = false) (h4 : o.parseImg angle .full = .ok (some d))
    (h5 : acceptedDict d = true) (h6 : o.rawTextOf angle .full = .ok raw) :
    (rotBlock o angle st).1 = .ret { d with raw_text := some raw } := by
  simp [rotBlock, h1, h2, h3, h4, h5, h6]

/-- Every attempt in the static code order passes include_checkdigit =
False. -/
theorem cascadeOrderCode_checkdigit (fast : Bool) :
    ∀ a ∈ cascadeOrderCode fast, a.includeCheckdigit = false := by
  cases fast <;> decide

/-- C6: a cascade result is accepted as a success iff its document number
or given name is non-empty (checksum validation is never demanded: every
parse in the static order carries include_checkdigit = false), and every
accepted success carries the raw recognized text. -/
theorem c6_success_acceptance :
    (∀ (o : ImgOracle) (fast : Bool) (st : TempFs) (d : ResultDict),
      (processImageRun o fast st).result = some d →
      d.error ≠ none ∨ (acceptedDict d = true ∧ d.raw_text ≠ none)) ∧
    (∀ (o : ImgOracle) (fast : Bool) (st : TempFs) (d : ResultDict) (raw : String),
      o.openFail = false → o.rotateFail 0 = false → o.mkTempFail 0 .full = false →
      o.saveFail 0 .full = false → o.parseImg 0 .full = .ok (some d) →
      acceptedDict d = true → o.rawTextOf 0 .full = .ok raw →
      (processImageRun o fast st).result = some { d with raw_text := some raw }) ∧
    (∀ (o : ImgOracle) (fast : Bool) (st : TempFs) (a : Attempt),
      a ∈ (processImageRun o fast st).mainTrace ++ (processImageRun o fast st).ocrTrace →
      a.includeCheckdigit = false) := by
  refine ⟨?_, ?_, ?_⟩
  · intro o fast st d h
    unfold processImageRun at h
    split at h
    · simp only [Option.some.injEq] at h
      subst h
      exact Or.inl (by simp)
    · split at h
      · rename_i d0 hm
        simp only [Option.some.injEq] at h
        subst h
        exact Or.inr (runMain_success o _ st _ hm)
      · simp only at h
        exact Or.inr (ocrFallback_success o d h)
  · intro o fast st d raw h1 h2 h3 h4 h5 h6 h7
    have hzero : ∃ rest, rotationsToTry fast = 0 :: rest := by
      cases fast
      · exact ⟨[-90, 90], rfl⟩
      · exact ⟨[-90], rfl⟩
    rcases hzero with ⟨rest, hrot⟩
    have hret := rotBlock_first_success o 0 st d raw h2 h3 h4 h5 h6 h7
    rcases hb : rotBlock o 0 st with ⟨fl, tr, st1⟩
    rw [hb] at hret
    subst hret
    have hrm : (runMain o (rotationsToTry fast) st).1
        = some { d with raw_text := some raw } := by
      rw [hrot]
      simp [runMain, hb]
    unfold processImageRun
    rw [if_neg (by simp [h1])]
    simp only [hrm]
  · intro o fast st a ha
    exact cascadeOrderCode_checkdigit fast a
      ((processImageRun_fullTrace_sublist o fast st).subset ha)

/-- An accepted parse result for the C6 witness. -/
def dWitness : ResultDict := { document_number := "X123456" }

/-- Oracle whose first attempt parses successfully. -/
def oFirstHit : ImgOracle :=
  { openFail := false
    rotateFail := fun _ => false
    mkTempFail := fun _ _ => false
    saveFail := fun _ _ => false
    cropFail := false
    parseImg := fun _ _ => .ok (some dWitness)
    rawTextOf := fun _ _ => .ok "P<RAWTEXTLINE<<<<"
    parseText := fun _ => .ok none
    reopenFail := false
    ocrString := fun _ => .error () }

/-- C6 witness: the first attempt's accepted parse is returned with the raw
text attached. -/
theorem c6_success_acceptance_witness :
    (processImageRun oFirstHit false ⟨[], 0⟩).result
      = some { dWitness with raw_text := some "P<RAWTEXTLINE<<<<" } :=
  c6_success_acceptance.2.1 oFirstHit false ⟨[], 0⟩ dWitness "P<RAWTEXTLINE<<<<"
    rfl rfl rfl rfl rfl (by decide) rfl

/-! ## Temporary-file cleanup for C9 -/

/-- When saving the bottom crop does not raise, the bottom block restores
the temporary-file set. -/
theorem bottomBlock_files (o : ImgOracle) (st : TempFs)
    (hs : o.saveFail 0 .bottom30 = false) :
    (bottomBlock o st).2.2.files = st.files := by
  unfold bottomBlock
  simp only [hs]
  repeat' split
  all_goals simp_all [mkTemp, rmTemp]

/-- The post-parse continuation leaves exactly the erase of its own
temporary file. -/
theorem rotAfterParse_files (o : ImgOracle) (angle : Int) (st1 : TempFs) (f1 : Nat)
    (hs : o.saveFail 0 .bottom30 = false) :
    (rotAfterParse o angle st1 f1).2.2.files = st1.files.erase f1 := by
  unfold rotAfterParse
  repeat' split
  all_goals simp [rmTemp, bottomBlock_files o st1 hs]

/-- One rotation iteration restores the temporary-file set. -/
theorem rotBlock_files (o : ImgOracle) (angle : Int) (st : TempFs)
    (hs : o.saveFail 0 .bottom30 = false) :
    (rotBlock o angle st).2.2.files = st.files := by
  unfold rotBlock
  have hap := rotAfterParse_files o angle
  repeat' split
  all_goals first
    | (rw [hap _ _ hs]; simp [mkTemp])
    | simp [mkTemp, rmTemp]

/-- The rotation loop restores the temporary-file set. -/
theorem runMain_files (o : ImgOracle) (angles : List Int) (st : TempFs)
    (hs : o.saveFail 0 .bottom30 = false) :
    (runMain o angles st).2.2.files = st.files := by
  induction angles generalizing st with
  | nil => rfl
  | cons a rest ih =>
    have hfile := rotBlock_files o a st hs
    rcases hb : rotBlock o a st with ⟨fl, tr, st1⟩
    rw [hb] at hfile
    cases fl with
    | ret d => simp only [runMain, hb]; exact hfile
    | cont =>
      simp only [runMain, hb]
      rw [ih st1]
      exact hfile

/-- `process_image` restores the temporary-file set when the bottom-crop
save does not raise. -/
theorem processImageRun_files (o : ImgOracle) (fast : Bool) (st : TempFs)
    (hs : o.saveFail 0 .bottom30 = false) :
    (processImageRun o fast st).st.files = st.files := by
  unfold processImageRun
  split
  · rfl
  · split <;> exact runMain_files o (rotationsToTry fast) st hs

/-- `_process_single_page` restores the temporary-file set when the
bottom-crop save does not raise. -/
theorem processSinglePage_files (o : PageOracle) (pageNum : Int) (totalPages : Nat)
    (fast : Bool) (st : TempFs) (hs : o.img.saveFail 0 .bottom30 = false) :
    (processSinglePage o pageNum totalPages fast st).st.files = st.files := by
  unfold processSinglePage
  have hrun := processImageRun_files o.img fast (mkTemp st).2 hs
  simp only [mkTemp] at hrun
  repeat' split
  all_goals simp [mkTemp, rmTemp, hrun]

/-- Oracle on which saving the bottom crop raises after its temporary file
was created, and everything else completes without exceptions. -/
def o9 : ImgOracle :=
  { openFail := false
    rotateFail := fun _ => false
    mkTempFail := fun _ _ => false
    saveFail := fun _ reg => decide (reg = Region.bottom30)
    cropFail := false
    parseImg := fun _ _ => .ok none
    rawTextOf := fun _ _ => .ok ""
    parseText := fun _ => .ok none
    reopenFail := false
    ocrString := fun _ => .error () }

/-- C9cx: the cleanup invariant fails on one path: when writing the
bottom-30% crop to its temporary file raises, that file (created at lines
209-210, saved at line 211 outside the try/finally of lines 213-223) is
never deleted, and the call returns with it still on disk. -/
theorem c9_cleanup_counterexample :
    (processImageRun o9 false ⟨[], 0⟩).st.files = [1] ∧
    (processImageRun o9 false ⟨[], 0⟩).st.files ≠ [] := by
  decide

/-- C9: on every path on which the bottom-crop save does not raise, both
`process_image` and `_process_single_page` delete every temporary raster
file they created before returning (the permanent page-3 inspection copy is
not tracked as a temporary file). -/
theorem c9_cleanup_invariant :
    (∀ (o : ImgOracle) (fast : Bool) (st : TempFs),
      o.saveFail 0 .bottom30 = false →
      (processImageRun o fast st).st.files = st.files) ∧
    (∀ (o : PageOracle) (pageNum : Int) (totalPages : Nat) (fast : Bool) (st : TempFs),
      o.img.saveFail 0 .bottom30 = false →
      (processSinglePage o pageNum totalPages fast st).st.files = st.files) :=
  ⟨fun o fast st hs => processImageRun_files o fast st hs,
   fun o p t fast st hs => processSinglePage_files o p t fast st hs⟩

/-- C9 witness: on an all-failing oracle without the bottom-save exception,
the temporary-file set is restored. -/
theorem c9_cleanup_invariant_witness :
    (processImageRun oAllNoneImg false ⟨[], 0⟩).st.files = [] :=
  c9_cleanup_invariant.1 oAllNoneImg false ⟨[], 0⟩ rfl

/-! ## Error boundary of `process_pdf` for C7 -/

/-- The first-success loop never produces an error outcome. -/
theorem firstSuccess_ne_error (env : PdfEnv) (l : List Int) (e : String) :
    firstSuccess env l ≠ .error e := by
  induction l with
  | nil => simp [firstSuccess]
  | cons p rest ih =>
    unfold firstSuccess
    repeat' split
    all_goals simp_all

/-- The scheduled-page dispatcher never produces an error outcome. -/
theorem runScheduled_ne_error (env : PdfEnv) (remaining : List Int) (parallel : Bool)
    (e : String) : runScheduled env remaining parallel ≠ .error e := by
  unfold runScheduled
  split
  · exact firstSuccess_ne_error env _ e
  · exact firstSuccess_ne_error env _ e

/-- The continuation after a failed priority page never produces an error
outcome. -/
theorem afterStartPage_ne_error (env : PdfEnv) (ptc s : Int) (parallel : Bool)
    (e : String) : afterStartPage env ptc s parallel ≠ .error e := by
  unfold afterStartPage
  split
  · simp
  · exact runScheduled_ne_error env _ parallel e

/-- The first-success loop only depends on the absorbed page outcomes. -/
theorem firstSuccess_congr (env1 env2 : PdfEnv)
    (h : ∀ p f, absorbPageExn (env2.run p f) = absorbPageExn (env1.run p f))
    (l : List Int) : firstSuccess env2 l = firstSuccess env1 l := by
  induction l with
  | nil => rfl
  | cons p rest ih =>
    unfold firstSuccess
    rw [h p false]
    repeat' split
    all_goals simp_all

/-- C7: `process_pdf` produces an error dictionary exactly when the
page-count step (the only step outside every per-page boundary in the
model) raises; and any per-page exception is equivalent to that page
returning None, so it never changes the outcome and never aborts the
search. -/
theorem c7_exception_boundary :
    (∀ (env : PdfEnv) (maxPages : Option Int) (parallel : Bool) (startPage : Option Int)
        (e : String),
      processPdf env maxPages parallel startPage = .error e ↔ env.info = .error e) ∧
    (∀ (env1 env2 : PdfEnv) (maxPages : Option Int) (parallel : Bool)
        (startPage : Option Int),
      env2.info = env1.info → env2.perm = env1.perm →
      (∀ p f, absorbPageExn (env2.run p f) = absorbPageExn (env1.run p f)) →
      processPdf env2 maxPages parallel startPage
        = processPdf env1 maxPages parallel startPage) := by
  have hbody : ∀ (env : PdfEnv) (maxPages : Option Int) (parallel : Bool)
      (startPage : Option Int) (totalPages : Nat) (e : String),
      processPdfPages env maxPages parallel startPage totalPages ≠ .error e := by
    intro env maxPages parallel startPage totalPages e
    unfold processPdfPages
    repeat' split
    all_goals first
      | exact afterStartPage_ne_error env _ _ parallel e
      | exact runScheduled_ne_error env _ parallel e
      | simp
  constructor
  · intro env maxPages parallel startPage e
    cases hinfo : env.info with
    | error e0 =>
      unfold processPdf
      rw [hinfo]
      simp
    | ok totalPages =>
      unfold processPdf
      rw [hinfo]
      constructor
      · intro h
        exact absurd h (hbody env maxPages parallel startPage totalPages e)
      · intro h
        simp at h
  · intro env1 env2 maxPages parallel startPage hinfo hperm hrun
    have hsched : ∀ remaining par,
        runScheduled env2 remaining par = runScheduled env1 remaining par := by
      intro remaining par
      unfold runScheduled
      rw [hperm]
      split
      · exact firstSuccess_congr env1 env2 hrun _
      · exact firstSuccess_congr env1 env2 hrun _
    have hafter : ∀ ptc s par,
        afterStartPage env2 ptc s par = afterStartPage env1 ptc s par := by
      intro ptc s par
      unfold afterStartPage
      split
      · rfl
      · exact hsched _ par
    have hpages : ∀ totalPages,
        processPdfPages env2 maxPages parallel startPage totalPages
          = processPdfPages env1 maxPages parallel startPage totalPages := by
      intro totalPages
      unfold processPdfPages
      split
      · rw [hrun]
        cases absorbPageExn (env1.run _ true) with
        | none => exact hafter _ _ parallel
        | some d =>
          simp only
          split
          · rfl
          · exact hafter _ _ parallel
      · exact hsched _ parallel
    unfold processPdf
    rw [hinfo]
    cases env1.info with
    | error e0 => rfl
    | ok totalPages => exact hpages totalPages

/-- An environment whose page-count step raises. -/
def envInfoRaises : PdfEnv :=
  { info := .error "NameError: name pdfinfo_from_path is not defined",
    run := fun _ _ => .ok none, perm := fun l => l }

/-- C7 witness: an exception while obtaining the page count surfaces as the
error dictionary, and an environment whose pages all raise produces the
same outcome as one whose pages all return None. -/
theorem c7_exception_boundary_witness :
    processPdf envInfoRaises none true none
      = .error "NameError: name pdfinfo_from_path is not defined" ∧
    processPdf { envAllNone with run := fun _ _ => .exn } none true none
      = processPdf envAllNone none true none :=
  ⟨(c7_exception_boundary.1 envInfoRaises none true none _).mpr rfl,
   c7_exception_boundary.2 envAllNone { envAllNone with run := fun _ _ => .exn }
     none true none rfl rfl (fun _ _ => rfl)⟩
